import Mathlib

/-!
Verification of the helpfund charity-sponsor discovery application.

This file gives a shallow embedding of the parts of the repository that the
verified properties speak about:

* the frontend global state reducer and consideration list
  (`src/frontend/project/src/context/GlobalContext.tsx`,
  `src/frontend/project/src/types/index.ts`);
* the frontend company-data transformation
  (`src/frontend/project/src/services/api.ts`, `transformCompanyData`);
* the company search/filter/rank core.  The backend service code itself is
  not part of the source tree, so the search pipeline is modelled from the
  specification, except for the ordering key, which is taken from the SQL
  documented in `src/backend/PERFORMANCE_OPTIMIZATION.md`
  (`ORDER BY COALESCE(tax_payment_2025, 0) DESC, "Company" ASC`).

Machine numbers are modelled as `Int` (tax figures) and `Nat` (pages, sizes);
JavaScript string comparison is modelled as lexicographic comparison of the
character list of the string.
-/

/- ### Frontend data model, from `src/frontend/project/src/types/index.ts` -/

/-- `Company` interface of `types/index.ts` (the shape the frontend holds in
its consideration list).  Optional TS fields become `Option`. -/
structure Company where
  id : String
  bin : String
  name : Option String
  oked : String
  activity : String
  kato : String
  locality : String
  krp : String
  size : String
  tax_data_2023 : Option Int
  tax_data_2024 : Option Int
  tax_data_2025 : Option Int
  contacts : Option String
  website : Option String
deriving DecidableEq

/-- `ChatHistoryItem` interface of `types/index.ts`. -/
structure ChatHistoryItem where
  id : String
  userPrompt : String
  aiResponse : List Company
  created_at : String
  threadId : String
  assistantId : String
deriving DecidableEq

/-- `User` interface of `types/index.ts`. -/
structure User where
  id : String
  email : String
  full_name : String
  is_verified : Bool
  is_active : Bool
  created_at : String
deriving DecidableEq

/-- `GlobalState` interface of `types/index.ts`. -/
structure GlobalState where
  history : List ChatHistoryItem
  considerationList : List Company
  user : Option User
  isLoading : Bool
deriving DecidableEq

/-- `GlobalAction` union of `types/index.ts`: one constructor per action tag. -/
inductive GlobalAction where
  | addHistory (payload : ChatHistoryItem)
  | loadHistory (payload : List ChatHistoryItem)
  | deleteHistory (payload : String)
  | updateHistory (payload : ChatHistoryItem)
  | addConsideration (payload : Company)
  | removeConsideration (payload : String)
  | setUser (payload : Option User)
  | setLoading (payload : Bool)
  | clearState
  | clearStatePreserveList
  | setConsiderationList (payload : List Company)
deriving DecidableEq

/-- `initialState` of `GlobalContext.tsx`. -/
def initialState : GlobalState :=
  { history := [], considerationList := [], user := none, isLoading := true }

/-- `globalReducer` of `src/frontend/project/src/context/GlobalContext.tsx`,
case by case.  TS spreads `{...state, f: v}` become record updates, array
spreads become list operations, `===` on strings becomes `==`. -/
def globalReducer (state : GlobalState) (action : GlobalAction) : GlobalState :=
  match action with
  | .addHistory payload =>
      { state with history := payload :: state.history }
  | .loadHistory payload =>
      { state with history := payload }
  | .deleteHistory payload =>
      { state with history := state.history.filter (fun item => item.id != payload) }
  | .updateHistory payload =>
      { state with history :=
          payload :: state.history.filter (fun item => item.id != payload.id) }
  | .addConsideration payload =>
      if state.considerationList.any (fun company => company.bin == payload.bin) then
        state
      else
        { state with considerationList := state.considerationList ++ [payload] }
  | .removeConsideration payload =>
      { state with considerationList :=
          state.considerationList.filter (fun company => company.bin != payload) }
  | .setUser payload =>
      match payload with
      | none => { state with user := none, history := [], considerationList := [] }
      | some u => { state with user := some u }
  | .setLoading payload =>
      { state with isLoading := payload }
  | .clearState =>
      { initialState with isLoading := false }
  | .clearStatePreserveList =>
      { state with history := [], user := none, isLoading := false }
  | .setConsiderationList payload =>
      { state with considerationList := payload }

/-- `isInConsideration` of `GlobalContext.tsx`:
`state.considerationList.some((company) => company.bin === bin)`. -/
def isInConsideration (state : GlobalState) (b : String) : Bool :=
  state.considerationList.any (fun company => company.bin == b)

/- ### Company transformation, from `src/frontend/project/src/services/api.ts` -/

/-- Shape of a raw backend company row as consumed by `transformCompanyData`
(`api.ts`): per-year `tax_<year>` fields for 2020..2025, backend names
`locality`/`activity`, and possibly already-present `region`/`industry`
overrides.  Absent JS fields become `none`. -/
structure RawCompany where
  bin : String
  name : String
  locality : String
  activity : String
  region : Option String
  industry : Option String
  tax_2020 : Option Int
  tax_2021 : Option Int
  tax_2022 : Option Int
  tax_2023 : Option Int
  tax_2024 : Option Int
  tax_2025 : Option Int
  contacts : Option String
  website : Option String
deriving DecidableEq

/-- JS `a || b` for an optional string falling back to a string: an absent or
empty string is falsy and yields the fallback. -/
def jsOrString (a : Option String) (b : String) : String :=
  match a with
  | none => b
  | some s => if s = "" then b else s

/-- JS `a || null` for an optional string: an empty string collapses to null. -/
def jsOrNull (a : Option String) : Option String :=
  match a with
  | none => none
  | some s => if s = "" then none else some s

/-- `formatTaxAmount` inside `transformCompanyData` (`api.ts`):
`if (!amount) return '0'` renders an absent amount and an amount of exactly
`0` as the literal string `"0"`; any other amount is rendered by the
`Intl.NumberFormat` currency formatter, modelled here as an arbitrary
rendering function `fmt`. -/
def formatTaxAmount (fmt : Int → String) (amount : Option Int) : String :=
  match amount with
  | none => "0"
  | some a => if a = 0 then "0" else fmt a

/-- The `['2020', ..., '2025'].map(year => ({year, amount: company[`tax_${year}`]}))`
list built by `transformCompanyData`. -/
def taxEntries (c : RawCompany) : List (String × Option Int) :=
  [("2020", c.tax_2020), ("2021", c.tax_2021), ("2022", c.tax_2022),
   ("2023", c.tax_2023), ("2024", c.tax_2024), ("2025", c.tax_2025)]

/-- JS truthiness of `tax.amount` in the `.filter(tax => tax.amount)` step:
`undefined`/`null`/`0` are falsy, every other number is truthy. -/
def truthyAmount (a : Option Int) : Bool :=
  match a with
  | none => false
  | some v => v != 0

/-- The per-year display lines `${tax.year}: ${formatTaxAmount(tax.amount)}`
kept by `transformCompanyData` after the truthiness filter. -/
def taxYearLines (fmt : Int → String) (c : RawCompany) : List String :=
  ((taxEntries c).filter (fun e => truthyAmount e.2)).map
    (fun e => e.1 ++ ": " ++ formatTaxAmount fmt e.2)

/-- The `taxYears` string of `transformCompanyData`: the kept lines joined
with a newline. -/
def taxYearsString (fmt : Int → String) (c : RawCompany) : String :=
  String.intercalate "\n" (taxYearLines fmt c)

/-- Output shape of `transformCompanyData`.  The JS function returns
`{...company, region, industry, taxes, contacts, website}`: every raw input
field — including the raw `locality`/`activity` names and the per-year
`tax_<year>` keys — is spread unchanged into the output, after which the
`region`, `industry`, `taxes`, `contacts` and `website` keys are
overridden. -/
structure TransformedCompany where
  bin : String
  name : String
  locality : String
  activity : String
  tax_2020 : Option Int
  tax_2021 : Option Int
  tax_2022 : Option Int
  tax_2023 : Option Int
  tax_2024 : Option Int
  tax_2025 : Option Int
  region : String
  industry : String
  taxes : String
  contacts : Option String
  website : Option String
deriving DecidableEq

/-- `transformCompanyData` of `src/frontend/project/src/services/api.ts`
(lines 56-86): spreads the raw row into the output, maps backend names to
`region`/`industry`, builds the `taxes` summary string with the fallback
`'Нет данных о налогах'` when no year survives the filter, and normalises
`contacts`/`website` with `|| null`. -/
def transformCompanyData (fmt : Int → String) (c : RawCompany) : TransformedCompany :=
  { bin := c.bin
    name := c.name
    locality := c.locality
    activity := c.activity
    tax_2020 := c.tax_2020
    tax_2021 := c.tax_2021
    tax_2022 := c.tax_2022
    tax_2023 := c.tax_2023
    tax_2024 := c.tax_2024
    tax_2025 := c.tax_2025
    region := jsOrString c.region c.locality
    industry := jsOrString c.industry c.activity
    taxes := if taxYearsString fmt c = "" then "Нет данных о налогах" else taxYearsString fmt c
    contacts := jsOrNull c.contacts
    website := jsOrNull c.website }

/- ### The search core -/

/-- `CompanyRecord` of the data model: one row of the `companies` table, with
one nullable tax figure per fiscal year 2020..2025 (absence is "no data",
not zero). -/
structure CompanyRecord where
  bin : String
  name : String
  locality : String
  activity : String
  tax_2020 : Option Int
  tax_2021 : Option Int
  tax_2022 : Option Int
  tax_2023 : Option Int
  tax_2024 : Option Int
  tax_2025 : Option Int
  contacts : Option String
  website : Option String
deriving DecidableEq

/-- Modelled from the spec: `SearchCriteria` — optional normalized location
token, optional free-text term, page number and page size. -/
structure SearchCriteria where
  location : Option String
  freeText : Option String
  page : Nat
  pageSize : Nat
deriving DecidableEq

/-- Modelled from the spec: the error taxonomy of the Search Service that can
terminate a `search` call (`NotFound` is deliberately absent: it belongs to
the point lookup only). -/
inductive SearchError where
  | InvalidCriteria
  | StoreUnavailable
deriving DecidableEq

/-- Modelled from the spec: pagination metadata of a `ResultPage`. -/
structure PaginationMetadata where
  total : Nat
  page : Nat
  per_page : Nat
  total_pages : Nat
  has_next : Bool
  has_prev : Bool
deriving DecidableEq

/-- Modelled from the spec: a `ResultPage` — ordered records plus metadata. -/
structure ResultPage where
  data : List CompanyRecord
  pagination : PaginationMetadata
deriving DecidableEq

instance : DecidableEq (Except SearchError ResultPage) := fun x y =>
  match x, y with
  | .ok a, .ok b =>
    if h : a = b then isTrue (by rw [h]) else isFalse (by intro he; injection he; contradiction)
  | .error a, .error b =>
    if h : a = b then isTrue (by rw [h]) else isFalse (by intro he; injection he; contradiction)
  | .ok _, .error _ => isFalse (by intro he; injection he)
  | .error _, .ok _ => isFalse (by intro he; injection he)

/-- Lexicographic comparison of character lists; models string collation for
company names. -/
def charListLe : List Char → List Char → Bool
  | [], _ => true
  | _ :: _, [] => false
  | a :: as, b :: bs => if a < b then true else if b < a then false else charListLe as bs

/-- Company-name comparison: lexicographic on the characters of the name. -/
def nameLe (a b : String) : Bool :=
  charListLe a.data b.data

/-- The numeric sort key of the implemented query, from
`src/backend/PERFORMANCE_OPTIMIZATION.md` (lines 62-66):
`COALESCE(tax_payment_2025, 0)` — the 2025 tax figure with NULL replaced by
zero.  Earlier years never enter the key. -/
def taxKey (r : CompanyRecord) : Int :=
  r.tax_2025.getD 0

/-- The implemented row ordering, from the documented
`ORDER BY COALESCE(tax_payment_2025, 0) DESC, "Company" ASC`: larger
coalesced 2025 tax first, ties broken by ascending company name. -/
def codeOrd (a b : CompanyRecord) : Prop :=
  taxKey b < taxKey a ∨ (taxKey a = taxKey b ∧ nameLe a.name b.name = true)

instance : DecidableRel codeOrd := fun a b =>
  inferInstanceAs
    (Decidable (taxKey b < taxKey a ∨ (taxKey a = taxKey b ∧ nameLe a.name b.name = true)))

/-- Modelled from the spec: criteria validation — `page ≥ 1`, page size
bounded to `[1, 100]`; never clamped. -/
def validCriteria (c : SearchCriteria) : Bool :=
  decide (1 ≤ c.page) && decide (1 ≤ c.pageSize) && decide (c.pageSize ≤ 100)

/-- Modelled from the spec: the words a record offers to full-text matching
(name and activity fields). -/
def wordsOf (r : CompanyRecord) : List String :=
  (r.name ++ " " ++ r.activity).splitOn " "

/-- Modelled from the spec: the filter predicate of the Query Compiler —
exact normalized-locality equality when a location token is present, and
word-level full-text matching (never substring matching) when a free-text
term is present; both present intersect (AND). -/
def matchesCriteria (c : SearchCriteria) (r : CompanyRecord) : Bool :=
  (match c.location with
   | none => true
   | some t => r.locality == t) &&
  (match c.freeText with
   | none => true
   | some t => (wordsOf r).contains t)

/-- The full ranked match list for a criteria: the filtered store sorted by
the implemented ordering (no pagination applied). -/
def searchRows (store : List CompanyRecord) (c : SearchCriteria) : List CompanyRecord :=
  List.insertionSort codeOrd (store.filter (matchesCriteria c))

/-- Modelled from the spec: `total_pages` — the number of pages needed for
`total` records at `pageSize` per page (ceiling division). -/
def totalPages (total pageSize : Nat) : Nat :=
  (total + pageSize - 1) / pageSize

/-- One page window of the ranked match list:
`offset = (page-1) * pageSize`, at most `pageSize` rows. -/
def pageData (c : SearchCriteria) (store : List CompanyRecord) (p : Nat) : List CompanyRecord :=
  ((searchRows store c).drop ((p - 1) * c.pageSize)).take c.pageSize

/-- Modelled from the spec: `search(criteria) -> ResultPage` — validates the
criteria (rejecting malformed ones with `InvalidCriteria` before any query
runs), then returns the requested window of the ranked match list together
with pagination metadata computed from the total match count. -/
def search (c : SearchCriteria) (store : List CompanyRecord) :
    Except SearchError ResultPage :=
  if validCriteria c then
    Except.ok
      { data := pageData c store c.page
        pagination :=
          { total := (searchRows store c).length
            page := c.page
            per_page := c.pageSize
            total_pages := totalPages (searchRows store c).length c.pageSize
            has_next := decide (c.page < totalPages (searchRows store c).length c.pageSize)
            has_prev := decide (1 < c.page) &&
              decide (c.page ≤ totalPages (searchRows store c).length c.pageSize) } }
  else
    Except.error SearchError.InvalidCriteria

/-- Modelled from the spec: `getById(identifier) -> CompanyRecord | NotFound`
— a point lookup by primary key (`none` is the 404 `NotFound` condition);
it scans by identity only and never consults the ranked-search pipeline. -/
def getById (store : List CompanyRecord) (i : String) : Option CompanyRecord :=
  store.find? (fun r => r.bin == i)

/-- The most recent fiscal year with any tax data, per record, as the spec
glossary defines it; written to the specification text, for comparison with
the implemented key `taxKey`. -/
def specMostRecentTax (r : CompanyRecord) : Option Int :=
  match r.tax_2025 with
  | some v => some v
  | none =>
    match r.tax_2024 with
    | some v => some v
    | none =>
      match r.tax_2023 with
      | some v => some v
      | none =>
        match r.tax_2022 with
        | some v => some v
        | none =>
          match r.tax_2021 with
          | some v => some v
          | none => r.tax_2020

/-- The ordering the specification claims: most-recent-year tax descending
with null strictly lowest (every record lacking tax data after every record
with any), ties (including both null) by ascending name.  Written to the
specification text, for comparison with the implemented ordering `codeOrd`. -/
def specOrdB (a b : CompanyRecord) : Bool :=
  match specMostRecentTax a, specMostRecentTax b with
  | some x, some y => decide (y < x) || (decide (x = y) && nameLe a.name b.name)
  | some _, none => true
  | none, some _ => false
  | none, none => nameLe a.name b.name

/-- The claim that every result page of `search` is ordered as the
specification describes. -/
def claimOrderedResult (c : SearchCriteria) (store : List CompanyRecord) : Prop :=
  ∀ p, search c store = Except.ok p → List.Pairwise (fun a b => specOrdB a b = true) p.data

/- ### Concrete sample data used by witnesses and counterexamples -/

/-- A record whose most recent tax year with data is 2024 (no 2025 figure). -/
def cexB : CompanyRecord :=
  { bin := "111", name := "B", locality := "Almaty", activity := "Mining"
    tax_2020 := none, tax_2021 := none, tax_2022 := none, tax_2023 := none
    tax_2024 := some 100, tax_2025 := none, contacts := none, website := none }

/-- A record with a 2025 tax figure smaller than `cexB`'s 2024 figure. -/
def cexA : CompanyRecord :=
  { bin := "222", name := "A", locality := "Almaty", activity := "Retail"
    tax_2020 := none, tax_2021 := none, tax_2022 := none, tax_2023 := none
    tax_2024 := none, tax_2025 := some 50, contacts := none, website := none }

/-- A two-record store snapshot. -/
def cexStore : List CompanyRecord := [cexB, cexA]

/-- Browse-all criteria: no predicates, first page of ten. -/
def cexCriteria : SearchCriteria :=
  { location := none, freeText := none, page := 1, pageSize := 10 }

/-- The page `search cexCriteria cexStore` actually produces: `cexA` (2025 tax
coalesced to 50) ahead of `cexB` (2025 tax coalesced to 0). -/
def cexPage : ResultPage :=
  { data := [cexA, cexB]
    pagination :=
      { total := 2, page := 1, per_page := 10, total_pages := 1
        has_next := false, has_prev := false } }

/-- Valid criteria whose location matches nothing in `cexStore`. -/
def noMatchCriteria : SearchCriteria :=
  { location := some "Astana", freeText := none, page := 1, pageSize := 20 }

/-- Criteria with the out-of-bounds page size `0`. -/
def badCriteria : SearchCriteria :=
  { location := none, freeText := none, page := 1, pageSize := 0 }

/-- A frontend company used in consideration-list witnesses. -/
def compX : Company :=
  { id := "1", bin := "123456789012", name := some "Alpha", oked := "01"
    activity := "Retail", kato := "75", locality := "Almaty", krp := "105"
    size := "small", tax_data_2023 := none, tax_data_2024 := none
    tax_data_2025 := some 10, contacts := none, website := none }

/-- A global state whose consideration list holds exactly `compX`. -/
def gsSample : GlobalState :=
  { history := [], considerationList := [compX], user := none, isLoading := false }

/-- A concrete rendering function standing in for `Intl.NumberFormat`. -/
def fmtSample : Int → String := fun n => toString n

/-- A raw backend row that records a tax payment of exactly `0` for 2023. -/
def rawZero : RawCompany :=
  { bin := "333", name := "Gamma", locality := "Almaty", activity := "Oil"
    region := none, industry := none
    tax_2020 := none, tax_2021 := none, tax_2022 := none
    tax_2023 := some 0, tax_2024 := none, tax_2025 := some 7
    contacts := none, website := none }

/- ### Theorems: consideration list and reducer -/

/-- C6: adding a company whose identifier is already in the consideration set
leaves the state unchanged (and adding twice equals adding once), and
removing an identifier that is not a member leaves the state unchanged;
neither is an error. -/
theorem claim_C6_consideration_add_remove :
    ∀ (s : GlobalState) (c : Company) (b : String),
      ((∃ x ∈ s.considerationList, x.bin = c.bin) →
        globalReducer s (GlobalAction.addConsideration c) = s)
      ∧ globalReducer (globalReducer s (GlobalAction.addConsideration c))
          (GlobalAction.addConsideration c)
          = globalReducer s (GlobalAction.addConsideration c)
      ∧ ((∀ x ∈ s.considerationList, x.bin ≠ b) →
        globalReducer s (GlobalAction.removeConsideration b) = s) := by
  intro s c b
  refine ⟨?_, ?_, ?_⟩
  · intro h
    have hmem : s.considerationList.any (fun company => company.bin == c.bin) = true := by
      rcases h with ⟨x, hx, he⟩
      exact List.any_eq_true.mpr ⟨x, hx, by simp [he]⟩
    simp [globalReducer, hmem]
  · cases hmem : s.considerationList.any (fun company => company.bin == c.bin) with
    | true => simp [globalReducer, hmem]
    | false =>
      have h2 : (s.considerationList ++ [c]).any (fun company => company.bin == c.bin) = true := by
        simp
      simp [globalReducer, hmem, h2]
  · intro h
    have hfil : s.considerationList.filter (fun company => company.bin != b)
        = s.considerationList :=
      List.filter_eq_self.mpr (by intro x hx; simpa using h x hx)
    simp [globalReducer, hfil]

/-- C6 witness: in the sample state, re-adding the member `compX` and removing
the non-member identifier `"999"` both leave the state unchanged. -/
theorem claim_C6_witness :
    globalReducer gsSample (GlobalAction.addConsideration compX) = gsSample ∧
      globalReducer gsSample (GlobalAction.removeConsideration "999") = gsSample :=
  ⟨(claim_C6_consideration_add_remove gsSample compX "999").1 (by decide),
   (claim_C6_consideration_add_remove gsSample compX "999").2.2 (by decide)⟩

/-- C9: the three consideration actions of `globalReducer` leave the
`history`, `user` and `isLoading` fields of the state untouched. -/
theorem claim_C9_consideration_frame :
    ∀ (s : GlobalState) (c : Company) (b : String) (l : List Company),
      ((globalReducer s (GlobalAction.addConsideration c)).history = s.history
        ∧ (globalReducer s (GlobalAction.addConsideration c)).user = s.user
        ∧ (globalReducer s (GlobalAction.addConsideration c)).isLoading = s.isLoading)
      ∧ ((globalReducer s (GlobalAction.removeConsideration b)).history = s.history
        ∧ (globalReducer s (GlobalAction.removeConsideration b)).user = s.user
        ∧ (globalReducer s (GlobalAction.removeConsideration b)).isLoading = s.isLoading)
      ∧ ((globalReducer s (GlobalAction.setConsiderationList l)).history = s.history
        ∧ (globalReducer s (GlobalAction.setConsiderationList l)).user = s.user
        ∧ (globalReducer s (GlobalAction.setConsiderationList l)).isLoading = s.isLoading) := by
  intro s c b l
  refine ⟨?_, by simp [globalReducer], by simp [globalReducer]⟩
  cases hmem : s.considerationList.any (fun company => company.bin == c.bin) <;>
    simp [globalReducer, hmem]

/-- C10: the consideration actions preserve distinctness of the identifiers
in the list, and `isInConsideration` answers membership by identifier. -/
theorem claim_C10_bin_nodup_invariant :
    ∀ (s : GlobalState) (c : Company) (b : String),
      ((s.considerationList.map (fun x => x.bin)).Nodup →
        ((globalReducer s (GlobalAction.addConsideration c)).considerationList.map
            (fun x => x.bin)).Nodup
        ∧ ((globalReducer s (GlobalAction.removeConsideration b)).considerationList.map
            (fun x => x.bin)).Nodup)
      ∧ (isInConsideration s b = true ↔ ∃ x ∈ s.considerationList, x.bin = b) := by
  intro s c b
  constructor
  · intro hnd
    constructor
    · cases hmem : s.considerationList.any (fun company => company.bin == c.bin) with
      | true => simpa [globalReducer, hmem] using hnd
      | false =>
        have hnotin : c.bin ∉ s.considerationList.map (fun x => x.bin) := by
          intro hin
          rcases List.mem_map.mp hin with ⟨x, hx, he⟩
          have hx2 : s.considerationList.any (fun company => company.bin == c.bin) = true :=
            List.any_eq_true.mpr ⟨x, hx, by simp [he]⟩
          simp [hx2] at hmem
        have hout : ((s.considerationList ++ [c]).map (fun x => x.bin)).Nodup := by
          rw [List.map_append]
          refine List.nodup_append.mpr ⟨hnd, List.nodup_singleton _, ?_⟩
          intro x hx hmem2
          simp only [List.map_cons, List.map_nil, List.mem_singleton] at hmem2
          subst hmem2
          exact hnotin hx
        simpa [globalReducer, hmem] using hout
    · have hsub : (globalReducer s (GlobalAction.removeConsideration b)).considerationList.Sublist
          s.considerationList := by
        simp only [globalReducer]
        exact List.filter_sublist _
      exact List.Nodup.sublist (List.Sublist.map (fun x => x.bin) hsub) hnd
  · simp [isInConsideration, List.any_eq_true]

/-- C10 witness: on the sample state the add/remove actions keep identifiers
distinct, and `isInConsideration` finds `compX` by its identifier. -/
theorem claim_C10_witness :
    (((globalReducer gsSample (GlobalAction.addConsideration compX)).considerationList.map
        (fun x => x.bin)).Nodup
      ∧ ((globalReducer gsSample (GlobalAction.removeConsideration "999")).considerationList.map
        (fun x => x.bin)).Nodup)
      ∧ (isInConsideration gsSample "123456789012" = true ↔
          ∃ x ∈ gsSample.considerationList, x.bin = "123456789012") :=
  ⟨(claim_C10_bin_nodup_invariant gsSample compX "999").1 (by decide),
   (claim_C10_bin_nodup_invariant gsSample compX "123456789012").2⟩

/- ### Theorems: company-data transformation -/

/-- Filtering ignores a middle entry that fails the predicate, whatever it is. -/
theorem filter_middle_false {α : Type} (p : α → Bool) (xs ys : List α) (a b : α)
    (ha : p a = false) (hb : p b = false) :
    (xs ++ a :: ys).filter p = (xs ++ b :: ys).filter p := by
  simp [List.filter_append, List.filter_cons, ha, hb]

/-- The `taxes` summary string of `transformCompanyData` is determined by the
filtered tax-entry list alone. -/
theorem transform_taxes_congr (fmt : Int → String) (c c' : RawCompany)
    (hf : (taxEntries c).filter (fun e => truthyAmount e.2)
        = (taxEntries c').filter (fun e => truthyAmount e.2)) :
    (transformCompanyData fmt c).taxes = (transformCompanyData fmt c').taxes := by
  simp [transformCompanyData, taxYearsString, taxYearLines, hf]

/-- C8 counterexample: because `transformCompanyData` spreads every raw field
into its output, the sample row recording a zero tax for 2023 and the same
row with the year absent produce distinguishable outputs — the passthrough
`tax_2023` field holds `some 0` in the one and `none` in the other, so the
transformed outputs are not equal. -/
theorem claim_C8_counterexample :
    transformCompanyData fmtSample rawZero
      ≠ transformCompanyData fmtSample { rawZero with tax_2023 := none } := by
  intro h
  have h2 := congrArg TransformedCompany.tax_2023 h
  simp [transformCompanyData, rawZero] at h2

/-- C8 (amended): `transformCompanyData` keeps a fiscal year in the `taxes`
summary string exactly when that year's figure is present and non-zero; the
formatter renders an absent amount and a zero amount as the same string
`"0"`; consequently a recorded zero for any year produces the same `taxes`
summary string as no data for that year — the displayed summary cannot tell
them apart, even though the raw per-year fields spread through to the output
still can. -/
theorem claim_C8_zero_tax_opacity :
    ∀ (fmt : Int → String) (a : Option Int) (c : RawCompany) (y : String),
      (formatTaxAmount fmt none = "0" ∧ formatTaxAmount fmt (some 0) = "0")
      ∧ ((y, a) ∈ (taxEntries c).filter (fun e => truthyAmount e.2) ↔
          (y, a) ∈ taxEntries c ∧ ∃ v, a = some v ∧ v ≠ 0)
      ∧ (c.tax_2020 = some 0 → (transformCompanyData fmt c).taxes
          = (transformCompanyData fmt { c with tax_2020 := none }).taxes)
      ∧ (c.tax_2021 = some 0 → (transformCompanyData fmt c).taxes
          = (transformCompanyData fmt { c with tax_2021 := none }).taxes)
      ∧ (c.tax_2022 = some 0 → (transformCompanyData fmt c).taxes
          = (transformCompanyData fmt { c with tax_2022 := none }).taxes)
      ∧ (c.tax_2023 = some 0 → (transformCompanyData fmt c).taxes
          = (transformCompanyData fmt { c with tax_2023 := none }).taxes)
      ∧ (c.tax_2024 = some 0 → (transformCompanyData fmt c).taxes
          = (transformCompanyData fmt { c with tax_2024 := none }).taxes)
      ∧ (c.tax_2025 = some 0 → (transformCompanyData fmt c).taxes
          = (transformCompanyData fmt { c with tax_2025 := none }).taxes) := by
  intro fmt a c y
  refine ⟨⟨rfl, rfl⟩, ?_, ?_, ?_, ?_, ?_, ?_, ?_⟩
  · constructor
    · intro h
      have h1 := List.mem_filter.mp h
      refine ⟨h1.1, ?_⟩
      cases a with
      | none => simp [truthyAmount] at h1
      | some v => exact ⟨v, rfl, by simpa [truthyAmount] using h1.2⟩
    · rintro ⟨hmem, v, rfl, hv⟩
      exact List.mem_filter.mpr ⟨hmem, by simpa [truthyAmount] using hv⟩
  · intro h
    refine transform_taxes_congr fmt _ _ ?_
    have hk := filter_middle_false (fun e : String × Option Int => truthyAmount e.2) []
      [("2021", c.tax_2021), ("2022", c.tax_2022), ("2023", c.tax_2023),
       ("2024", c.tax_2024), ("2025", c.tax_2025)]
      ("2020", some 0) ("2020", none) (by decide) (by decide)
    simpa [taxEntries, h] using hk
  · intro h
    refine transform_taxes_congr fmt _ _ ?_
    have hk := filter_middle_false (fun e : String × Option Int => truthyAmount e.2) [("2020", c.tax_2020)]
      [("2022", c.tax_2022), ("2023", c.tax_2023), ("2024", c.tax_2024), ("2025", c.tax_2025)]
      ("2021", some 0) ("2021", none) (by decide) (by decide)
    simpa [taxEntries, h] using hk
  · intro h
    refine transform_taxes_congr fmt _ _ ?_
    have hk := filter_middle_false (fun e : String × Option Int => truthyAmount e.2)
      [("2020", c.tax_2020), ("2021", c.tax_2021)]
      [("2023", c.tax_2023), ("2024", c.tax_2024), ("2025", c.tax_2025)]
      ("2022", some 0) ("2022", none) (by decide) (by decide)
    simpa [taxEntries, h] using hk
  · intro h
    refine transform_taxes_congr fmt _ _ ?_
    have hk := filter_middle_false (fun e : String × Option Int => truthyAmount e.2)
      [("2020", c.tax_2020), ("2021", c.tax_2021), ("2022", c.tax_2022)]
      [("2024", c.tax_2024), ("2025", c.tax_2025)]
      ("2023", some 0) ("2023", none) (by decide) (by decide)
    simpa [taxEntries, h] using hk
  · intro h
    refine transform_taxes_congr fmt _ _ ?_
    have hk := filter_middle_false (fun e : String × Option Int => truthyAmount e.2)
      [("2020", c.tax_2020), ("2021", c.tax_2021), ("2022", c.tax_2022), ("2023", c.tax_2023)]
      [("2025", c.tax_2025)]
      ("2024", some 0) ("2024", none) (by decide) (by decide)
    simpa [taxEntries, h] using hk
  · intro h
    refine transform_taxes_congr fmt _ _ ?_
    have hk := filter_middle_false (fun e : String × Option Int => truthyAmount e.2)
      [("2020", c.tax_2020), ("2021", c.tax_2021), ("2022", c.tax_2022), ("2023", c.tax_2023),
       ("2024", c.tax_2024)]
      []
      ("2025", some 0) ("2025", none) (by decide) (by decide)
    simpa [taxEntries, h] using hk

/-- C8 witness: the sample row recording a zero 2023 tax yields literally the
same `taxes` summary string as the same row with no 2023 data at all. -/
theorem claim_C8_witness :
    (transformCompanyData fmtSample rawZero).taxes
      = (transformCompanyData fmtSample { rawZero with tax_2023 := none }).taxes :=
  (claim_C8_zero_tax_opacity fmtSample (some 5) rawZero "2023").2.2.2.2.2.1 rfl

/- ### Theorems: ordering helpers -/

/-- Unfolding of lexicographic comparison on a cons pair. -/
theorem charListLe_cons {x y : Char} {xs ys : List Char} :
    charListLe (x :: xs) (y :: ys) = true ↔ x < y ∨ (x = y ∧ charListLe xs ys = true) := by
  simp only [charListLe]
  split_ifs with h1 h2
  · simp [h1]
  · have hne : x ≠ y := fun e => absurd h2 (e ▸ lt_irrefl x)
    simp [h1, hne]
  · have he : x = y := le_antisymm (not_lt.mp h2) (not_lt.mp h1)
    simp [h1, he]

/-- Lexicographic comparison is total. -/
theorem charListLe_total : ∀ a b, charListLe a b = true ∨ charListLe b a = true := by
  intro a
  induction a with
  | nil => intro b; left; rfl
  | cons x xs ih =>
    intro b
    cases b with
    | nil => right; rfl
    | cons y ys =>
      rcases lt_trichotomy x y with h | h | h
      · left; exact charListLe_cons.mpr (Or.inl h)
      · rcases ih ys with h' | h'
        · left; exact charListLe_cons.mpr (Or.inr ⟨h, h'⟩)
        · right; exact charListLe_cons.mpr (Or.inr ⟨h.symm, h'⟩)
      · right; exact charListLe_cons.mpr (Or.inl h)

/-- Lexicographic comparison is transitive. -/
theorem charListLe_trans : ∀ a b c, charListLe a b = true → charListLe b c = true →
    charListLe a c = true := by
  intro a
  induction a with
  | nil => intro b c _ _; rfl
  | cons x xs ih =>
    intro b c hab hbc
    cases b with
    | nil => simp [charListLe] at hab
    | cons y ys =>
      cases c with
      | nil => simp [charListLe] at hbc
      | cons z zs =>
        rcases charListLe_cons.mp hab with h | ⟨he, hr⟩ <;>
          rcases charListLe_cons.mp hbc with h' | ⟨he', hr'⟩
        · exact charListLe_cons.mpr (Or.inl (lt_trans h h'))
        · exact charListLe_cons.mpr (Or.inl (he' ▸ h))
        · exact charListLe_cons.mpr (Or.inl (he ▸ h'))
        · exact charListLe_cons.mpr (Or.inr ⟨he.trans he', ih ys zs hr hr'⟩)

/-- The implemented row ordering is total. -/
theorem codeOrd_total : ∀ a b : CompanyRecord, codeOrd a b ∨ codeOrd b a := by
  intro a b
  rcases lt_trichotomy (taxKey a) (taxKey b) with h | h | h
  · right; exact Or.inl h
  · rcases charListLe_total a.name.data b.name.data with h' | h'
    · left; exact Or.inr ⟨h, h'⟩
    · right; exact Or.inr ⟨h.symm, h'⟩
  · left; exact Or.inl h

/-- The implemented row ordering is transitive. -/
theorem codeOrd_trans : ∀ a b c : CompanyRecord, codeOrd a b → codeOrd b c → codeOrd a c := by
  intro a b c hab hbc
  rcases hab with h1 | ⟨h1, h2⟩ <;> rcases hbc with h3 | ⟨h3, h4⟩
  · exact Or.inl (lt_trans h3 h1)
  · exact Or.inl (h3 ▸ h1)
  · exact Or.inl (by rw [h1]; exact h3)
  · exact Or.inr ⟨h1.trans h3, charListLe_trans _ _ _ h2 h4⟩

/-- The full ranked match list is pairwise ordered by the implemented
ordering. -/
theorem searchRows_pairwise (store : List CompanyRecord) (c : SearchCriteria) :
    List.Pairwise codeOrd (searchRows store c) := by
  haveI : IsTotal CompanyRecord codeOrd := ⟨codeOrd_total⟩
  haveI : IsTrans CompanyRecord codeOrd := ⟨codeOrd_trans⟩
  exact List.sorted_insertionSort codeOrd _

/-- Splitting a list into consecutive chunks of size `n` and concatenating
the chunks in order restores the list. -/
theorem flatMap_chunks {α : Type} (n : Nat) (hn : 0 < n) :
    ∀ (m : Nat) (l : List α), l.length ≤ m →
      (List.range ((l.length + n - 1) / n)).flatMap (fun i => (l.drop (i * n)).take n) = l := by
  intro m
  induction m with
  | zero =>
    intro l hl
    have hnil : l = [] := List.eq_nil_of_length_eq_zero (Nat.le_zero.mp hl)
    subst hnil
    have h0 : (List.length ([] : List α) + n - 1) / n = 0 :=
      Nat.div_eq_of_lt (by simpa using Nat.sub_lt hn Nat.one_pos)
    rw [h0]
    rfl
  | succ m ih =>
    intro l hl
    cases l with
    | nil =>
      have h0 : (List.length ([] : List α) + n - 1) / n = 0 :=
        Nat.div_eq_of_lt (by simpa using Nat.sub_lt hn Nat.one_pos)
      rw [h0]
      rfl
    | cons x xs =>
      set l := x :: xs with hldef
      have hpages : (l.length + n - 1) / n = (l.length - 1) / n + 1 := by
        have he : l.length + n - 1 = (l.length - 1) + n := by
          have : 1 ≤ l.length := by simp [hldef]
          omega
        rw [he, Nat.add_div_right _ hn]
      have hpagesd : ((l.drop n).length + n - 1) / n = (l.length - 1) / n := by
        rcases le_or_lt n l.length with h | h
        · have hd : (l.drop n).length = l.length - n := by simp
          rw [hd]
          congr 1
          omega
        · have h1 : (l.drop n).length = 0 := by simp; omega
          rw [h1]
          have h2 : (0 + n - 1) / n = 0 := Nat.div_eq_of_lt (by omega)
          have h3 : (l.length - 1) / n = 0 := Nat.div_eq_of_lt (by omega)
          rw [h2, h3]
      have hdroplen : (l.drop n).length ≤ m := by
        simp only [List.length_drop]
        have hsucc : l.length ≤ m + 1 := hl
        omega
      have ihd := ih (l.drop n) hdroplen
      rw [hpagesd] at ihd
      rw [hpages, List.range_succ_eq_map, List.flatMap_cons, List.flatMap_map]
      simp only [Nat.zero_mul, List.drop_zero]
      have harg : (fun i => (l.drop (Nat.succ i * n)).take n) =
          (fun i => ((l.drop n).drop (i * n)).take n) := by
        funext i
        rw [List.drop_drop, Nat.succ_mul, Nat.add_comm]
      calc l.take n ++ (List.range ((l.length - 1) / n)).flatMap
              (fun i => (l.drop (Nat.succ i * n)).take n)
          = l.take n ++ (List.range ((l.length - 1) / n)).flatMap
              (fun i => ((l.drop n).drop (i * n)).take n) := by rw [harg]
        _ = l.take n ++ l.drop n := by rw [ihd]
        _ = l := List.take_append_drop n l

/- ### Theorems: search ordering (C1) -/

/-- C1 counterexample: on a store where one record's most recent tax year is
2024 (value 100) and the other has a 2025 figure of 50, the implemented
ordering (2025 figure coalesced to zero) puts the 50-record first, violating
the claimed most-recent-year, null-lowest ordering. -/
theorem claim_C1_counterexample : ¬ claimOrderedResult cexCriteria cexStore := by
  intro h
  exact absurd (h cexPage (by decide)) (by decide)

/-- C1 (amended): every result page of `search` is ordered by the documented
key `COALESCE(tax_payment_2025, 0)` descending — the 2025 figure with null
replaced by zero, earlier years ignored — with ties broken by ascending
company name. -/
theorem claim_C1_amended_ordering :
    ∀ (c : SearchCriteria) (store : List CompanyRecord) (p : ResultPage),
      search c store = Except.ok p → List.Pairwise codeOrd p.data := by
  intro c store p h
  by_cases hv : validCriteria c = true
  · unfold search at h
    rw [if_pos hv] at h
    injection h with h2
    subst h2
    exact List.Pairwise.sublist
      ((List.take_sublist _ _).trans (List.drop_sublist _ _))
      (searchRows_pairwise store c)
  · unfold search at h
    rw [if_neg hv] at h
    injection h

/-- C1 witness: on the concrete two-record store the produced page is
`[cexA, cexB]` and is pairwise ordered by the implemented ordering. -/
theorem claim_C1_witness :
    search cexCriteria cexStore = Except.ok cexPage ∧ List.Pairwise codeOrd cexPage.data :=
  ⟨by decide, claim_C1_amended_ordering cexCriteria cexStore cexPage (by decide)⟩

/- ### Theorems: determinism (C2) -/

/-- C2: for a fixed criteria and a fixed store snapshot, two invocations of
`search` return identical results — identical rows in identical order and
identical pagination metadata. -/
theorem claim_C2_determinism :
    ∀ (c : SearchCriteria) (store : List CompanyRecord)
      (r₁ r₂ : Except SearchError ResultPage),
      search c store = r₁ → search c store = r₂ →
      r₁ = r₂ ∧ ∀ p₁ p₂, r₁ = Except.ok p₁ → r₂ = Except.ok p₂ →
        p₁.data = p₂.data ∧ p₁.pagination = p₂.pagination := by
  intro c store r₁ r₂ h1 h2
  subst h1
  subst h2
  refine ⟨rfl, ?_⟩
  intro p₁ p₂ e1 e2
  rw [e1] at e2
  injection e2 with e
  subst e
  exact ⟨rfl, rfl⟩

/-- C2 witness: both invocations on the concrete store return the same
`Except.ok cexPage`. -/
theorem claim_C2_witness :
    (Except.ok cexPage : Except SearchError ResultPage) = Except.ok cexPage ∧
      ∀ p₁ p₂, (Except.ok cexPage : Except SearchError ResultPage) = Except.ok p₁ →
        (Except.ok cexPage : Except SearchError ResultPage) = Except.ok p₂ →
        p₁.data = p₂.data ∧ p₁.pagination = p₂.pagination :=
  claim_C2_determinism cexCriteria cexStore (Except.ok cexPage) (Except.ok cexPage)
    (by decide) (by decide)

/- ### Theorems: pagination partition (C3) -/

/-- C3: for valid criteria, concatenating pages 1..total_pages in order
yields exactly the full ranked match list (no duplicates, no gaps, `total`
records in total); every page is what `search` returns at
`offset = (page-1) * pageSize`, and no page exceeds `pageSize` rows. -/
theorem claim_C3_pagination_partition :
    ∀ (c : SearchCriteria) (store : List CompanyRecord),
      validCriteria c = true →
      ((List.range (totalPages (searchRows store c).length c.pageSize)).flatMap
          (fun i => pageData c store (i + 1)) = searchRows store c)
      ∧ (∀ i : Nat, ∃ meta : PaginationMetadata,
          search { c with page := i + 1 } store
            = Except.ok { data := pageData c store (i + 1), pagination := meta })
      ∧ (∀ p : Nat, (pageData c store p).length ≤ c.pageSize) := by
  intro c store hv
  have hps : 0 < c.pageSize := by
    simp only [validCriteria, Bool.and_eq_true, decide_eq_true_eq] at hv
    omega
  refine ⟨?_, ?_, ?_⟩
  · have hc := flatMap_chunks c.pageSize hps (searchRows store c).length (searchRows store c)
      le_rfl
    have harg : (fun i => pageData c store (i + 1))
        = (fun i => ((searchRows store c).drop (i * c.pageSize)).take c.pageSize) := by
      funext i
      simp [pageData]
    rw [harg, totalPages]
    exact hc
  · intro i
    have hv2 : validCriteria { c with page := i + 1 } = true := by
      simp only [validCriteria, Bool.and_eq_true, decide_eq_true_eq] at hv ⊢
      omega
    refine ⟨{ total := (searchRows store c).length, page := i + 1, per_page := c.pageSize
              total_pages := totalPages (searchRows store c).length c.pageSize
              has_next :=
                decide (i + 1 < totalPages (searchRows store c).length c.pageSize)
              has_prev := decide (1 < i + 1) &&
                decide (i + 1 ≤ totalPages (searchRows store c).length c.pageSize) }, ?_⟩
    unfold search
    rw [if_pos hv2]
    rfl
  · intro p
    simp only [pageData, List.length_take]
    exact min_le_left _ _

/-- C3 witness: on the concrete store with page size 10, the single page
reassembles the full ranked match list. -/
theorem claim_C3_witness :
    validCriteria cexCriteria = true ∧
      (List.range (totalPages (searchRows cexStore cexCriteria).length
          cexCriteria.pageSize)).flatMap
        (fun i => pageData cexCriteria cexStore (i + 1)) = searchRows cexStore cexCriteria :=
  ⟨by decide, (claim_C3_pagination_partition cexCriteria cexStore (by decide)).1⟩

/- ### Theorems: bounds enforcement (C4) -/

/-- C4: `pageSize = 0`, `pageSize = 101` and `page = 0` are each rejected
with `InvalidCriteria` before any query evaluation — never clamped and never
answered with a successful page. -/
theorem claim_C4_bounds_rejected :
    ∀ (c : SearchCriteria) (store : List CompanyRecord),
      (c.pageSize = 0 ∨ c.pageSize = 101 ∨ c.page = 0) →
      search c store = Except.error SearchError.InvalidCriteria := by
  intro c store h
  have hv : ¬ (validCriteria c = true) := by
    simp only [validCriteria, Bool.and_eq_true, decide_eq_true_eq]
    rintro ⟨⟨h1, h2⟩, h3⟩
    rcases h with h | h | h <;> omega
  unfold search
  rw [if_neg hv]

/-- C4 witness: the concrete criteria with `pageSize = 0` is rejected. -/
theorem claim_C4_witness :
    (badCriteria.pageSize = 0 ∨ badCriteria.pageSize = 101 ∨ badCriteria.page = 0) ∧
      search badCriteria cexStore = Except.error SearchError.InvalidCriteria :=
  ⟨Or.inl rfl, claim_C4_bounds_rejected badCriteria cexStore (Or.inl rfl)⟩

/- ### Theorems: empty match (C5) -/

/-- C5: well-formed criteria matching zero rows succeed with an empty data
array and pagination metadata `total = 0`, `total_pages = 0`,
`has_next = false`, `has_prev = false` — not an error. -/
theorem claim_C5_empty_match :
    ∀ (c : SearchCriteria) (store : List CompanyRecord),
      validCriteria c = true →
      store.filter (matchesCriteria c) = [] →
      search c store = Except.ok
        { data := []
          pagination :=
            { total := 0, page := c.page, per_page := c.pageSize, total_pages := 0
              has_next := false, has_prev := false } } := by
  intro c store hv hfil
  have hrows : searchRows store c = [] := by
    rw [searchRows, hfil]
    rfl
  obtain ⟨⟨hp, hs⟩, -⟩ :
      (1 ≤ c.page ∧ 1 ≤ c.pageSize) ∧ c.pageSize ≤ 100 := by
    simpa only [validCriteria, Bool.and_eq_true, decide_eq_true_eq] using hv
  have htp : totalPages 0 c.pageSize = 0 := by
    unfold totalPages
    exact Nat.div_eq_of_lt (by omega)
  have hle : ¬ (c.page ≤ 0) := by omega
  unfold search
  rw [if_pos hv]
  simp [pageData, hrows, htp, hle]

/-- C5 witness: the concrete criteria for locality `"Astana"` matches nothing
in the store and returns the canonical empty page. -/
theorem claim_C5_witness :
    validCriteria noMatchCriteria = true ∧
      search noMatchCriteria cexStore = Except.ok
        { data := []
          pagination :=
            { total := 0, page := 1, per_page := 20, total_pages := 0
              has_next := false, has_prev := false } } :=
  ⟨by decide, claim_C5_empty_match noMatchCriteria cexStore (by decide) (by decide)⟩

/- ### Theorems: point lookup (C7) -/

/-- C7: `getById` is a pure point lookup — it returns a record exactly when
the store holds one with the requested identifier (and then a record of the
store with that identifier), answering `NotFound` (`none`) otherwise; and a
`search` with valid criteria always succeeds with a page, so an empty search
result is never a `NotFound`. -/
theorem claim_C7_point_lookup :
    ∀ (store : List CompanyRecord) (i : String),
      (∀ r, getById store i = some r → r ∈ store ∧ r.bin = i)
      ∧ (getById store i = none ↔ ∀ r ∈ store, r.bin ≠ i)
      ∧ (∀ c, validCriteria c = true → ∃ p, search c store = Except.ok p) := by
  intro store i
  refine ⟨?_, ?_, ?_⟩
  · intro r h
    refine ⟨List.mem_of_find?_eq_some h, ?_⟩
    have h2 := List.find?_some h
    simpa using h2
  · unfold getById
    rw [List.find?_eq_none]
    simp
  · intro c hv
    refine ⟨{ data := pageData c store c.page
              pagination :=
                { total := (searchRows store c).length, page := c.page, per_page := c.pageSize
                  total_pages := totalPages (searchRows store c).length c.pageSize
                  has_next :=
                    decide (c.page < totalPages (searchRows store c).length c.pageSize)
                  has_prev := decide (1 < c.page) &&
                    decide (c.page ≤ totalPages (searchRows store c).length c.pageSize) } }, ?_⟩
    unfold search
    rw [if_pos hv]

/-- C7 witness: on the concrete store, identifier `"222"` resolves to `cexA`,
and the valid browse criteria yield a successful page. -/
theorem claim_C7_witness :
    (cexA ∈ cexStore ∧ cexA.bin = "222") ∧
      (∃ p, search cexCriteria cexStore = Except.ok p) :=
  ⟨(claim_C7_point_lookup cexStore "222").1 cexA (by decide),
   (claim_C7_point_lookup cexStore "222").2.2 cexCriteria (by decide)⟩
